import Mathlib

/-!
Shallow embedding of the FBugReporter C++ reporter connectors
(`src/reporter_connector/main.cpp`, the variant with validator, protocol
version and connect-retry loop, and `src/reporter_connectors/main.cpp`,
the older variant without them).

Byte strings (`std::string`) are modelled as `List Nat` (one Nat per byte);
`std::string::size()` is `List.length`.  The `unsigned short` arithmetic of
the wire layer is modelled with explicit `% 65536`.  Network and process
side effects are modelled with explicit environments (`ConnEnv`, `Env`,
`SEnv`) that decide the outcome of each system call, and every function
additionally returns the list of observable events (`Ev`) it performed, in
order.
-/

/-- `enum REPORT_FIELD` of reporter_connector/main.cpp. -/
inductive REPORT_FIELD
  | RF_REPORT_NAME
  | RF_REPORT_TEXT
  | RF_SENDER_NAME
  | RF_SENDER_EMAIL
  | RF_GAME_NAME
  | RF_GAME_VERSION
deriving DecidableEq, Repr, Fintype

/-- Numeric value of each `REPORT_FIELD` enumerator (its position in the
fixed field order). -/
def fieldIdx : REPORT_FIELD → Nat
  | .RF_REPORT_NAME => 0
  | .RF_REPORT_TEXT => 1
  | .RF_SENDER_NAME => 2
  | .RF_SENDER_EMAIL => 3
  | .RF_GAME_NAME => 4
  | .RF_GAME_VERSION => 5

/-- `enum REPORT_FIELD_LIMIT` of reporter_connector/main.cpp: the maximum
byte length of each field. -/
def fieldLimit : REPORT_FIELD → Nat
  | .RF_REPORT_NAME => 100
  | .RF_REPORT_TEXT => 5120
  | .RF_SENDER_NAME => 100
  | .RF_SENDER_EMAIL => 100
  | .RF_GAME_NAME => 100
  | .RF_GAME_VERSION => 100

/-- `struct GameReport`: six text fields, each a byte string. -/
structure GameReport where
  report_name : List Nat
  report_text : List Nat
  sender_name : List Nat
  sender_email : List Nat
  game_name : List Nat
  game_version : List Nat
deriving DecidableEq, Repr

/-- Byte length of one field of a report. -/
def fieldLen (r : GameReport) : REPORT_FIELD → Nat
  | .RF_REPORT_NAME => r.report_name.length
  | .RF_REPORT_TEXT => r.report_text.length
  | .RF_SENDER_NAME => r.sender_name.length
  | .RF_SENDER_EMAIL => r.sender_email.length
  | .RF_GAME_NAME => r.game_name.length
  | .RF_GAME_VERSION => r.game_version.length

/-- `check_fields_limit` of reporter_connector/main.cpp, verbatim: a chain
of `if (field.size() > LIMIT) return FIELD;` tests.  The source tests the
sender email limit twice in a row (lines 159-165); the duplicate test is
kept here. -/
def check_fields_limit (r : GameReport) : Option REPORT_FIELD :=
  if r.report_name.length > 100 then some .RF_REPORT_NAME
  else if r.report_text.length > 5120 then some .RF_REPORT_TEXT
  else if r.sender_name.length > 100 then some .RF_SENDER_NAME
  else if r.sender_email.length > 100 then some .RF_SENDER_EMAIL
  else if r.sender_email.length > 100 then some .RF_SENDER_EMAIL
  else if r.game_name.length > 100 then some .RF_GAME_NAME
  else if r.game_version.length > 100 then some .RF_GAME_VERSION
  else none

/-- Instrumented `check_fields_limit`: same control flow as the source,
additionally recording, in order, every field whose size the function
reads (each `if` condition reads exactly one field).  The duplicated
sender email test reads the sender email field a second time. -/
def check_fields_limit_trace (r : GameReport) :
    Option REPORT_FIELD × List REPORT_FIELD :=
  if r.report_name.length > 100 then
    (some .RF_REPORT_NAME, [.RF_REPORT_NAME])
  else if r.report_text.length > 5120 then
    (some .RF_REPORT_TEXT, [.RF_REPORT_NAME, .RF_REPORT_TEXT])
  else if r.sender_name.length > 100 then
    (some .RF_SENDER_NAME, [.RF_REPORT_NAME, .RF_REPORT_TEXT, .RF_SENDER_NAME])
  else if r.sender_email.length > 100 then
    (some .RF_SENDER_EMAIL,
      [.RF_REPORT_NAME, .RF_REPORT_TEXT, .RF_SENDER_NAME, .RF_SENDER_EMAIL])
  else if r.sender_email.length > 100 then
    (some .RF_SENDER_EMAIL,
      [.RF_REPORT_NAME, .RF_REPORT_TEXT, .RF_SENDER_NAME, .RF_SENDER_EMAIL,
       .RF_SENDER_EMAIL])
  else if r.game_name.length > 100 then
    (some .RF_GAME_NAME,
      [.RF_REPORT_NAME, .RF_REPORT_TEXT, .RF_SENDER_NAME, .RF_SENDER_EMAIL,
       .RF_SENDER_EMAIL, .RF_GAME_NAME])
  else if r.game_version.length > 100 then
    (some .RF_GAME_VERSION,
      [.RF_REPORT_NAME, .RF_REPORT_TEXT, .RF_SENDER_NAME, .RF_SENDER_EMAIL,
       .RF_SENDER_EMAIL, .RF_GAME_NAME, .RF_GAME_VERSION])
  else
    (none,
      [.RF_REPORT_NAME, .RF_REPORT_TEXT, .RF_SENDER_NAME, .RF_SENDER_EMAIL,
       .RF_SENDER_EMAIL, .RF_GAME_NAME, .RF_GAME_VERSION])

/-- Reference validator written from the specification's words: test each
of the six fields exactly once, in the fixed field order, and return the
first field whose byte length exceeds its limit. -/
def check_fields_limit_ref (r : GameReport) : Option REPORT_FIELD :=
  if r.report_name.length > 100 then some .RF_REPORT_NAME
  else if r.report_text.length > 5120 then some .RF_REPORT_TEXT
  else if r.sender_name.length > 100 then some .RF_SENDER_NAME
  else if r.sender_email.length > 100 then some .RF_SENDER_EMAIL
  else if r.game_name.length > 100 then some .RF_GAME_NAME
  else if r.game_version.length > 100 then some .RF_GAME_VERSION
  else none

/-- `REPORTER_PROTOCOL` constant of reporter_connector/main.cpp. -/
def REPORTER_PROTOCOL : Nat := 0

/-- `RETRY_CONNECT_COUNT` constant of reporter_connector/main.cpp. -/
def RETRY_CONNECT_COUNT : Nat := 5

/-- `SLEEP_TIME_MS` constant of reporter_connector/main.cpp. -/
def SLEEP_TIME_MS : Nat := 1000

/-- Structured form of the error values the connectors build (the source
assembles them into `std::string` messages; the constructors here carry
the data embedded in those messages). -/
inductive Err
  | resolveErr (code : Nat)
  | connectErr (code : Nat)
  | sendErr (sent expected : Nat)
  | recvErr (received expected : Nat)
  | binMissing
  | spawnFailed (code : Nat)
deriving DecidableEq, Repr

/-- Observable events of a run, in program order.  A `sendB payload sent`
event is one `send` call offering `payload` to the OS, which reported
`sent` bytes transferred; `recvB requested got` is one `recv` call. -/
inductive Ev
  | resolve (ok : Bool)
  | socketCreate
  | connectTry (ok : Bool)
  | sleepMs (ms : Nat)
  | nodelay
  | sendB (payload : List Nat) (sent : Nat)
  | recvB (requested got : Nat)
  | shutdownSend
  | closeSocket
  | spawnReporter
  | invalidField (f : REPORT_FIELD)
deriving DecidableEq, Repr

/-- Outcome model for the system calls made on one established connection:
for the `k`-th `send` call of the connection requesting `n` bytes,
`sendCount k n` is the byte count the OS reports as sent; `recvCount` is
the byte count the single `recv` call reports, and `recvVal` the answer
value delivered when the read is complete. -/
structure ConnEnv where
  sendCount : Nat → Nat → Nat
  recvCount : Nat
  recvVal : Nat

/-- Outcome model for one run of reporter_connector/main.cpp: per attempt
index `i`, whether `getaddrinfo` succeeds (and its failure code), whether
`connect` succeeds (and the `errno` a failed attempt leaves), the
connection model used after a successful connect, and the outcomes of the
reporter-binary launch. -/
structure Env where
  resolve_ok : Nat → Bool
  resolve_code : Nat → Nat
  connect_ok : Nat → Bool
  last_error : Nat → Nat
  conn : Nat → ConnEnv
  reporter_exists : Bool
  spawn_ok : Bool
  spawn_code : Nat

/-- Outcome model for one run of reporter_connectors/main.cpp (the older
variant: a single connection attempt, no retry loop). -/
structure SEnv where
  resolve_ok : Bool
  resolve_code : Nat
  connect_ok : Bool
  last_error : Nat
  conn : ConnEnv

/-- Two-byte little-endian encoding of a value below 65536 — the memory
bytes of an `unsigned short` on the platforms the source targets. -/
def le16 (n : Nat) : List Nat := [n % 256, n / 256 % 256]

/-- Bytes actually handed to the network by a list of events: for each
`send` call, the first `sent` bytes of its payload, concatenated in
order. -/
def sentBytes : List Ev → List Nat
  | [] => []
  | .sendB p s :: t => p.take s ++ sentBytes t
  | _ :: t => sentBytes t

/-- A fault-free connection: every `send` transfers all requested bytes;
`recv` delivers the full 2-byte reply with answer value 0. -/
def fullConn : ConnEnv :=
  { sendCount := fun _ n => n, recvCount := 2, recvVal := 0 }

namespace Connector

/-- `send_protocol_version` of reporter_connector/main.cpp: one `send`
call offering the two bytes of `REPORTER_PROTOCOL`; an incomplete send is
an error.  `k` is the index of this `send` call on the connection. -/
def send_protocol_version (c : ConnEnv) (k : Nat) :
    Except Err Unit × List Ev :=
  let payload := le16 (REPORTER_PROTOCOL % 65536)
  let sent := c.sendCount k 2
  if sent = 2 then (.ok (), [.sendB payload sent])
  else (.error (.sendErr sent 2), [.sendB payload sent])

/-- `send_string` of reporter_connector/main.cpp: computes
`unsigned short len = text.size()` (truncation modulo 2^16) and makes a
single `send` call offering the two bytes of `len`.  The function returns
after that: this variant never offers the text body to the socket. -/
def send_string (c : ConnEnv) (k : Nat) (text : List Nat) :
    Except Err Unit × List Ev :=
  let len := text.length % 65536
  let sent := c.sendCount k 2
  if sent = 2 then (.ok (), [.sendB (le16 len) sent])
  else (.error (.sendErr sent 2), [.sendB (le16 len) sent])

/-- `send_data` of reporter_connector/main.cpp: protocol version first,
then the six fields in the fixed order, stopping at the first failed
write. -/
def send_data (c : ConnEnv) (r : GameReport) : Except Err Unit × List Ev :=
  let s0 := send_protocol_version c 0
  match s0.1 with
  | .error e => (.error e, s0.2)
  | .ok _ =>
  let s1 := send_string c 1 r.report_name
  match s1.1 with
  | .error e => (.error e, s0.2 ++ s1.2)
  | .ok _ =>
  let s2 := send_string c 2 r.report_text
  match s2.1 with
  | .error e => (.error e, s0.2 ++ s1.2 ++ s2.2)
  | .ok _ =>
  let s3 := send_string c 3 r.sender_name
  match s3.1 with
  | .error e => (.error e, s0.2 ++ s1.2 ++ s2.2 ++ s3.2)
  | .ok _ =>
  let s4 := send_string c 4 r.sender_email
  match s4.1 with
  | .error e => (.error e, s0.2 ++ s1.2 ++ s2.2 ++ s3.2 ++ s4.2)
  | .ok _ =>
  let s5 := send_string c 5 r.game_name
  match s5.1 with
  | .error e => (.error e, s0.2 ++ s1.2 ++ s2.2 ++ s3.2 ++ s4.2 ++ s5.2)
  | .ok _ =>
  let s6 := send_string c 6 r.game_version
  match s6.1 with
  | .error e => (.error e, s0.2 ++ s1.2 ++ s2.2 ++ s3.2 ++ s4.2 ++ s5.2 ++ s6.2)
  | .ok _ => (.ok (), s0.2 ++ s1.2 ++ s2.2 ++ s3.2 ++ s4.2 ++ s5.2 ++ s6.2)

end Connector

namespace Connector

/-- The `for (size_t i = 0; i < RETRY_CONNECT_COUNT; i++)` loop body of
`send_report` in reporter_connector/main.cpp, by remaining iterations:
`fuel` iterations remain, the current loop index is
`RETRY_CONNECT_COUNT - fuel`, and `answer` is the current value of the
`answer_code` local (which persists across iterations).  The source loop
has no `break`: after a successful send-and-receive round trip (shutdown
and close included) control falls to the next iteration, exactly as here.
The report argument is re-sent as-is on later iterations (the C++ sends
the moved-from strings there; no theorem below depends on the payload
contents of any iteration after the first). -/
def send_report_loop (env : Env) (r : GameReport) :
    Nat → Nat → Except Err Nat × List Ev
  | 0, answer => (.ok answer, [])
  | fuel + 1, answer =>
    let i := RETRY_CONNECT_COUNT - (fuel + 1)
    if env.resolve_ok i = false then
      (.error (.resolveErr (env.resolve_code i)), [.resolve false])
    else
      let evs : List Ev := [.resolve true, .socketCreate,
        .connectTry (env.connect_ok i)]
      if env.connect_ok i = false then
        if fuel = 0 then
          (.error (.connectErr (env.last_error i)), evs)
        else
          let rest := send_report_loop env r fuel answer
          (rest.1, evs ++ [.sleepMs SLEEP_TIME_MS] ++ rest.2)
      else
        let c := env.conn i
        let sd := send_data c r
        match sd.1 with
        | .error e => (.error e, evs ++ [.nodelay] ++ sd.2)
        | .ok _ =>
          let got := c.recvCount
          if got = 2 then
            let rest := send_report_loop env r fuel (c.recvVal % 65536)
            (rest.1, evs ++ [.nodelay] ++ sd.2
              ++ [.recvB 2 got, .shutdownSend, .closeSocket] ++ rest.2)
          else
            (.error (.recvErr got 2),
              evs ++ [.nodelay] ++ sd.2 ++ [.recvB 2 got])

/-- `send_report` of reporter_connector/main.cpp: run the connect loop
with all `RETRY_CONNECT_COUNT` iterations remaining and `answer_code`
initialized to 0. -/
def send_report (env : Env) (r : GameReport) : Except Err Nat × List Ev :=
  send_report_loop env r RETRY_CONNECT_COUNT 0

/-- `start_reporter` of reporter_connector/main.cpp (Linux path): check
that the reporter binary exists, `posix_spawn` it, then sleep
`SLEEP_TIME_MS` to let it start. -/
def start_reporter (env : Env) : Option Err × List Ev :=
  if env.reporter_exists = false then (some .binMissing, [])
  else if env.spawn_ok = false then
    (some (.spawnFailed env.spawn_code), [.spawnReporter])
  else (none, [.spawnReporter, .sleepMs SLEEP_TIME_MS])

/-- `reporter` of reporter_connector/main.cpp: validate the fields first
(returning -2 and reporting the offending field), then launch the
reporter binary (returning -1 on failure), then send the report; a
decoded answer code is returned as-is, any transport error as -1. -/
def reporter (env : Env) (r : GameReport) : Int × List Ev :=
  match check_fields_limit r with
  | some f => (-2, [.invalidField f])
  | none =>
    match start_reporter env with
    | (some _, evs) => (-1, evs)
    | (none, evs) =>
      match send_report env r with
      | (.ok a, evs2) => ((a : Int), evs ++ evs2)
      | (.error _, evs2) => (-1, evs ++ evs2)

end Connector

namespace Connectors

/-- `send_string` of reporter_connectors/main.cpp: compute
`unsigned short len = text.size()` (truncation modulo 2^16), `send` the
two bytes of `len` (call index `k`), and, unless `len == 0`, `send` the
first `len` bytes of the text (call index `k+1`); each incomplete send is
an error.  Returns the result, the events, and the next call index. -/
def send_string (c : ConnEnv) (k : Nat) (text : List Nat) :
    Except Err Unit × List Ev × Nat :=
  let len := text.length % 65536
  let sent := c.sendCount k 2
  if sent = 2 then
    if len = 0 then (.ok (), [.sendB (le16 len) sent], k + 1)
    else
      let sent2 := c.sendCount (k + 1) len
      if sent2 = len then
        (.ok (), [.sendB (le16 len) sent, .sendB (text.take len) sent2], k + 2)
      else
        (.error (.sendErr sent2 len),
          [.sendB (le16 len) sent, .sendB (text.take len) sent2], k + 2)
  else (.error (.sendErr sent 2), [.sendB (le16 len) sent], k + 1)

/-- `send_data` of reporter_connectors/main.cpp: the six fields in the
fixed order, no protocol version, stopping at the first failed write. -/
def send_data (c : ConnEnv) (r : GameReport) : Except Err Unit × List Ev :=
  let s1 := send_string c 0 r.report_name
  match s1.1 with
  | .error e => (.error e, s1.2.1)
  | .ok _ =>
  let s2 := send_string c s1.2.2 r.report_text
  match s2.1 with
  | .error e => (.error e, s1.2.1 ++ s2.2.1)
  | .ok _ =>
  let s3 := send_string c s2.2.2 r.sender_name
  match s3.1 with
  | .error e => (.error e, s1.2.1 ++ s2.2.1 ++ s3.2.1)
  | .ok _ =>
  let s4 := send_string c s3.2.2 r.sender_email
  match s4.1 with
  | .error e => (.error e, s1.2.1 ++ s2.2.1 ++ s3.2.1 ++ s4.2.1)
  | .ok _ =>
  let s5 := send_string c s4.2.2 r.game_name
  match s5.1 with
  | .error e => (.error e, s1.2.1 ++ s2.2.1 ++ s3.2.1 ++ s4.2.1 ++ s5.2.1)
  | .ok _ =>
  let s6 := send_string c s5.2.2 r.game_version
  match s6.1 with
  | .error e =>
    (.error e, s1.2.1 ++ s2.2.1 ++ s3.2.1 ++ s4.2.1 ++ s5.2.1 ++ s6.2.1)
  | .ok _ =>
    (.ok (), s1.2.1 ++ s2.2.1 ++ s3.2.1 ++ s4.2.1 ++ s5.2.1 ++ s6.2.1)

/-- `send_report` of reporter_connectors/main.cpp: resolve, one `connect`
(no retry), disable Nagle, send the six fields, then read the answer code
into an `int` — the `recv` call requests `sizeof(int) = 4` bytes and any
other received count is an error — and finally shutdown and close.
Success is `none` (the variant surfaces no answer code). -/
def send_report (env : SEnv) (r : GameReport) : Option Err × List Ev :=
  if env.resolve_ok = false then
    (some (.resolveErr env.resolve_code), [.resolve false])
  else
    let evs : List Ev := [.resolve true, .socketCreate,
      .connectTry env.connect_ok]
    if env.connect_ok = false then
      (some (.connectErr env.last_error), evs)
    else
      let c := env.conn
      let sd := send_data c r
      match sd.1 with
      | .error e => (some e, evs ++ [.nodelay] ++ sd.2)
      | .ok _ =>
        let got := c.recvCount
        if got = 4 then
          (none, evs ++ [.nodelay] ++ sd.2
            ++ [.recvB 4 got, .shutdownSend, .closeSocket])
        else
          (some (.recvErr got 4),
            evs ++ [.nodelay] ++ sd.2 ++ [.recvB 4 got])

end Connectors

/-- Byte stream the newer variant's `send_string` puts on a fault-free
connection. -/
def Connector.send_string_bytes (text : List Nat) : List Nat :=
  sentBytes (Connector.send_string fullConn 0 text).2

/-- Byte stream the newer variant's `send_data` puts on a fault-free
connection. -/
def Connector.send_data_bytes (r : GameReport) : List Nat :=
  sentBytes (Connector.send_data fullConn r).2

/-- Byte stream the older variant's `send_string` puts on a fault-free
connection. -/
def Connectors.send_string_bytes (text : List Nat) : List Nat :=
  sentBytes (Connectors.send_string fullConn 0 text).2.1

/-- Byte stream the older variant's `send_data` puts on a fault-free
connection. -/
def Connectors.send_data_bytes (r : GameReport) : List Nat :=
  sentBytes (Connectors.send_data fullConn r).2

/-- `check_fields_limit` returns `none` exactly when all six raw byte
lengths are within their limits. -/
theorem cfl_none_iff (r : GameReport) :
    check_fields_limit r = none ↔
      r.report_name.length ≤ 100 ∧ r.report_text.length ≤ 5120 ∧
      r.sender_name.length ≤ 100 ∧ r.sender_email.length ≤ 100 ∧
      r.game_name.length ≤ 100 ∧ r.game_version.length ≤ 100 := by
  unfold check_fields_limit
  split_ifs <;> simp <;> omega

/-- All six fields are within their limits exactly when the six raw
inequalities hold. -/
theorem allFields_iff (r : GameReport) :
    (∀ f, fieldLen r f ≤ fieldLimit f) ↔
      (r.report_name.length ≤ 100 ∧ r.report_text.length ≤ 5120 ∧
       r.sender_name.length ≤ 100 ∧ r.sender_email.length ≤ 100 ∧
       r.game_name.length ≤ 100 ∧ r.game_version.length ≤ 100) := by
  constructor
  · intro h
    exact ⟨h .RF_REPORT_NAME, h .RF_REPORT_TEXT, h .RF_SENDER_NAME,
      h .RF_SENDER_EMAIL, h .RF_GAME_NAME, h .RF_GAME_VERSION⟩
  · intro h f
    cases f <;> simp [fieldLen, fieldLimit] <;> omega

/-- When `check_fields_limit` names a field, that field exceeds its limit
and every field earlier in the fixed order is within its limit. -/
theorem cfl_some_first (r : GameReport) (f : REPORT_FIELD)
    (hf : check_fields_limit r = some f) :
    fieldLimit f < fieldLen r f ∧
      ∀ g, fieldIdx g < fieldIdx f → fieldLen r g ≤ fieldLimit g := by
  unfold check_fields_limit at hf
  split_ifs at hf with h1 h2 h3 h4 h5 h6 <;>
    first
      | exact Option.noConfusion hf
      | (injection hf with hf
         subst hf
         refine ⟨by simp [fieldLen, fieldLimit]; omega, fun g hg => ?_⟩
         cases g <;> simp [fieldIdx] at hg <;> simp [fieldLen, fieldLimit] <;>
           omega)

/-- When `check_fields_limit` names a field, the instrumented validator
reads no field later in the fixed order than the named one. -/
theorem cfl_trace_bound (r : GameReport) (f : REPORT_FIELD)
    (hf : check_fields_limit r = some f) :
    ∀ g ∈ (check_fields_limit_trace r).2, fieldIdx g ≤ fieldIdx f := by
  unfold check_fields_limit at hf
  unfold check_fields_limit_trace
  split_ifs at hf ⊢ with h1 h2 h3 h4 h5 h6 <;>
    first
      | exact Option.noConfusion hf
      | (injection hf with hf
         subst hf
         decide)

/-- C4: a report in which every field's byte length is within its limit
(report name 100, report text 5120, sender name 100, sender email 100,
game name 100, game version 100) validates as `none` ("valid"); otherwise
the validator returns the first field in the fixed order whose byte
length exceeds its limit, every earlier field being within its limit, and
the instrumented validator inspects no field past that first offender. -/
theorem C4_validator_first_offender (r : GameReport) :
    (check_fields_limit r = none ↔ ∀ f, fieldLen r f ≤ fieldLimit f) ∧
    ∀ f, check_fields_limit r = some f →
      fieldLimit f < fieldLen r f ∧
      (∀ g, fieldIdx g < fieldIdx f → fieldLen r g ≤ fieldLimit g) ∧
      ∀ g ∈ (check_fields_limit_trace r).2, fieldIdx g ≤ fieldIdx f := by
  refine ⟨?_, fun f hf => ⟨(cfl_some_first r f hf).1, (cfl_some_first r f hf).2,
    cfl_trace_bound r f hf⟩⟩
  rw [cfl_none_iff, allFields_iff]

/-- Report whose sender name is the only field over its limit. -/
def wBadSender : GameReport :=
  ⟨[1], [2], List.replicate 101 7, [], [3], [4]⟩

/-- C4 witness: on a concrete report whose sender name has 101 bytes, the
validator returns the sender name field, that field exceeds its limit, all
earlier fields are within limits, and the inspection trace stops at the
sender name. -/
theorem C4_validator_first_offender_witness :
    check_fields_limit wBadSender = some .RF_SENDER_NAME ∧
    (fieldLimit .RF_SENDER_NAME < fieldLen wBadSender .RF_SENDER_NAME ∧
     (∀ g, fieldIdx g < fieldIdx REPORT_FIELD.RF_SENDER_NAME →
        fieldLen wBadSender g ≤ fieldLimit g) ∧
     ∀ g ∈ (check_fields_limit_trace wBadSender).2,
        fieldIdx g ≤ fieldIdx REPORT_FIELD.RF_SENDER_NAME) :=
  ⟨by decide, (C4_validator_first_offender wBadSender).2 .RF_SENDER_NAME
    (by decide)⟩

/-- C10: the implemented validator, which tests the sender email limit
twice in a row, returns the same result as the reference validator that
tests each of the six fields exactly once in the fixed order — the
duplicated test has no observable effect on the result, for any report. -/
theorem C10_duplicate_check_no_effect (r : GameReport) :
    check_fields_limit r = check_fields_limit_ref r := by
  unfold check_fields_limit check_fields_limit_ref
  split_ifs <;> rfl

/-- Frame layout of one field per the specification's wire format: the
2-byte little-endian length, then that many raw bytes, the body omitted
when the length is 0. -/
def fieldFrame (t : List Nat) : List Nat :=
  le16 (t.length % 65536) ++
    (if t.length % 65536 = 0 then [] else t.take (t.length % 65536))

/-- `sentBytes` distributes over concatenation of event lists. -/
theorem sentBytes_append (a b : List Ev) :
    sentBytes (a ++ b) = sentBytes a ++ sentBytes b := by
  induction a with
  | nil => rfl
  | cons e t ih => cases e <;> simp [sentBytes, ih]

/-- On a fault-free connection the older variant's `send_string`
succeeds. -/
theorem send_string_full_ok (k : Nat) (t : List Nat) :
    (Connectors.send_string fullConn k t).1 = .ok () := by
  simp only [Connectors.send_string, fullConn]
  split_ifs <;> rfl

/-- On a fault-free connection the older variant's `send_string` puts
exactly the field's frame on the wire. -/
theorem send_string_full_bytes (k : Nat) (t : List Nat) :
    sentBytes (Connectors.send_string fullConn k t).2.1 = fieldFrame t := by
  simp only [Connectors.send_string, fullConn, fieldFrame]
  split_ifs <;> simp_all [sentBytes, le16, List.take_take]

/-- C1: evaluation of both variants' field encoders at the 3-byte field
"abc".  The claim requires the 2-byte length prefix followed by exactly 3
raw content bytes; the reporter_connectors variant produces that frame
(and just the zero prefix for an empty field), but the reporter_connector
variant writes only the 2-byte length prefix and never the body. -/
theorem C1_connector_send_string_omits_body :
    Connector.send_string_bytes [97, 98, 99] = [3, 0] ∧
    Connector.send_string_bytes [97, 98, 99] ≠ le16 3 ++ [97, 98, 99] ∧
    Connectors.send_string_bytes [97, 98, 99] = le16 3 ++ [97, 98, 99] ∧
    Connectors.send_string_bytes [] = le16 0 := by decide

/-- Report whose report name is one byte and whose other fields are
empty. -/
def oneCharReport : GameReport := ⟨[65], [], [], [], [], []⟩

/-- C2 counterexample: in the reporter_connectors variant the first bytes
written to the connection are the report name's length prefix, not the
2-byte protocol version constant — for a report whose name is the single
byte 65, the stream starts with the bytes 1, 0 rather than the version
constant's encoding. -/
theorem C2_counterexample_connectors_no_version :
    Connectors.send_data_bytes oneCharReport =
      [1, 0, 65, 0, 0, 0, 0, 0, 0, 0, 0, 0, 0] ∧
    List.take 2 (Connectors.send_data_bytes oneCharReport) ≠
      le16 REPORTER_PROTOCOL := by decide

/-- C2 amended: in the reporter_connector variant the 2-byte protocol
version constant is written first, before any of the six report fields
(which that variant frames as the six length prefixes); the
reporter_connectors variant writes no protocol version at all — its
stream is exactly the six field frames, starting with the report name
frame. -/
theorem C2_amended_version_first_in_connector_only (r : GameReport) :
    Connector.send_data_bytes r =
      le16 REPORTER_PROTOCOL ++
        (le16 (r.report_name.length % 65536) ++
         le16 (r.report_text.length % 65536) ++
         le16 (r.sender_name.length % 65536) ++
         le16 (r.sender_email.length % 65536) ++
         le16 (r.game_name.length % 65536) ++
         le16 (r.game_version.length % 65536)) ∧
    Connectors.send_data_bytes r =
      fieldFrame r.report_name ++ fieldFrame r.report_text ++
      fieldFrame r.sender_name ++ fieldFrame r.sender_email ++
      fieldFrame r.game_name ++ fieldFrame r.game_version := by
  constructor
  · unfold Connector.send_data_bytes Connector.send_data
      Connector.send_protocol_version Connector.send_string fullConn
    simp [sentBytes, le16, REPORTER_PROTOCOL]
  · unfold Connectors.send_data_bytes Connectors.send_data
    simp only [send_string_full_ok]
    simp [sentBytes_append, send_string_full_bytes]

/-- Report whose report text is 65536 bytes long, the other fields
empty. -/
def bigReport : GameReport :=
  ⟨[], List.replicate 65536 7, [], [], [], []⟩

/-- Fault-free single-connection environment for the older variant. -/
def okSEnv : SEnv :=
  { resolve_ok := true, resolve_code := 0, connect_ok := true,
    last_error := 0,
    conn := { sendCount := fun _ n => n, recvCount := 4, recvVal := 0 } }

/-- On a fault-free connection, the older variant's whole send operation
succeeds for any report whose report text length is a multiple of 2^16
and whose other fields are empty. -/
theorem send_report_full_ok_text_mod (t : List Nat)
    (h : t.length % 65536 = 0) :
    (Connectors.send_report okSEnv ⟨[], t, [], [], [], []⟩).1 = none := by
  unfold Connectors.send_report Connectors.send_data Connectors.send_string
    okSEnv
  simp only [h]
  norm_num

/-- C9: both variants write, as the field's 2-byte length prefix, the
field's byte length reduced modulo 2^16, which equals the true length
exactly when that length is below 65536; a 65536-byte report text is
framed with a zero length prefix, and the reporter_connectors variant —
which has no validator — accepts such a report at its public interface
(the send operation succeeds). -/
theorem C9_length_truncated_mod_65536 :
    (∀ text : List Nat,
      List.take 2 (Connectors.send_string_bytes text) =
        le16 (text.length % 65536) ∧
      List.take 2 (Connector.send_string_bytes text) =
        le16 (text.length % 65536) ∧
      (text.length % 65536 = text.length ↔ text.length < 65536)) ∧
    bigReport.report_text.length = 65536 ∧
    List.take 2 (Connectors.send_string_bytes bigReport.report_text) =
      le16 0 ∧
    (Connectors.send_report okSEnv bigReport).1 = none := by
  have hbig : bigReport.report_text = List.replicate 65536 7 := rfl
  have hlen : bigReport.report_text.length = 65536 := by
    rw [hbig, List.length_replicate]
  have hmod : bigReport.report_text.length % 65536 = 0 := by
    rw [hlen]
  refine ⟨fun text => ⟨?_, ?_, ?_⟩, hlen, ?_, ?_⟩
  · unfold Connectors.send_string_bytes
    rw [send_string_full_bytes]
    unfold fieldFrame
    split_ifs <;> simp [le16]
  · simp only [Connector.send_string_bytes, Connector.send_string, fullConn]
    split_ifs <;> simp [sentBytes, le16]
  · omega
  · unfold Connectors.send_string_bytes
    rw [send_string_full_bytes]
    unfold fieldFrame
    rw [hmod]
    simp [le16]
  · exact send_report_full_ok_text_mod (List.replicate 65536 7)
      (by rw [List.length_replicate])

deriving instance DecidableEq for Except

/-- Event classifier: connect attempts. -/
def isConnectTry : Ev → Bool
  | .connectTry _ => true
  | _ => false

/-- Event classifier: receive calls. -/
def isRecvCall : Ev → Bool
  | .recvB _ _ => true
  | _ => false

/-- Event classifier: any event touching the network (address resolution,
socket creation, connect attempts, writes, reads). -/
def isNetworkEv : Ev → Bool
  | .resolve _ => true
  | .socketCreate => true
  | .connectTry _ => true
  | .sendB _ _ => true
  | .recvB _ _ => true
  | _ => false

/-- Fault-free environment for the newer variant: every resolve and every
connect attempt succeeds, every send transfers all requested bytes, each
recv delivers the full 2-byte answer 0, and the reporter binary exists
and spawns. -/
def okEnv : Env :=
  { resolve_ok := fun _ => true, resolve_code := fun _ => 0,
    connect_ok := fun _ => true, last_error := fun _ => 0,
    conn := fun _ => fullConn, reporter_exists := true,
    spawn_ok := true, spawn_code := 0 }

/-- A small in-limits report. -/
def sampleReport : GameReport := ⟨[65], [66], [67], [68], [69], [70]⟩

/-- C3: evaluation of the newer variant's send operation in a fully
successful environment.  The loop of `send_report` has no break after a
successful round trip: with every system call succeeding the operation
performs five full connect, send, receive, shutdown, close cycles — five
connect attempts and five receive calls — where the claim says the
send/receive phase runs at most once and connect is never re-entered
after a successful round trip. -/
theorem C3_loop_reenters_connect_after_success :
    (Connector.send_report okEnv sampleReport).1 = .ok 0 ∧
    (Connector.send_report okEnv sampleReport).2.countP isConnectTry = 5 ∧
    (Connector.send_report okEnv sampleReport).2.countP isRecvCall = 5 ∧
    (Connector.send_report okEnv sampleReport).2.count Ev.closeSocket
      = 5 := by decide

/-- Environment in which every connect attempt fails with errno 111
(connection refused). -/
def refuseEnv : Env :=
  { resolve_ok := fun _ => true, resolve_code := fun _ => 0,
    connect_ok := fun _ => false, last_error := fun _ => 111,
    conn := fun _ => fullConn, reporter_exists := true,
    spawn_ok := true, spawn_code := 0 }

/-- C5: when address resolution always succeeds and every TCP connect
fails, the newer variant's send operation performs exactly 5 connect
attempts with one fixed 1000&#x2d;ms sleep between consecutive attempts, makes
no sixth attempt, and fails with a connection error carrying the platform
error code observed at the last attempt. -/
theorem C5_exactly_five_attempts_then_error (env : Env) (r : GameReport)
    (hres : ∀ i, env.resolve_ok i = true)
    (hcon : ∀ i, env.connect_ok i = false) :
    Connector.send_report env r =
      (.error (.connectErr (env.last_error 4)),
       [.resolve true, .socketCreate, .connectTry false,
        .sleepMs SLEEP_TIME_MS,
        .resolve true, .socketCreate, .connectTry false,
        .sleepMs SLEEP_TIME_MS,
        .resolve true, .socketCreate, .connectTry false,
        .sleepMs SLEEP_TIME_MS,
        .resolve true, .socketCreate, .connectTry false,
        .sleepMs SLEEP_TIME_MS,
        .resolve true, .socketCreate, .connectTry false]) := by
  unfold Connector.send_report
  simp [Connector.send_report_loop, hres, hcon, RETRY_CONNECT_COUNT]

/-- C5 witness: the five-attempt trace and the connection error at a
concrete always-refusing environment. -/
theorem C5_exactly_five_attempts_then_error_witness :
    Connector.send_report refuseEnv sampleReport =
      (.error (.connectErr (refuseEnv.last_error 4)),
       [.resolve true, .socketCreate, .connectTry false,
        .sleepMs SLEEP_TIME_MS,
        .resolve true, .socketCreate, .connectTry false,
        .sleepMs SLEEP_TIME_MS,
        .resolve true, .socketCreate, .connectTry false,
        .sleepMs SLEEP_TIME_MS,
        .resolve true, .socketCreate, .connectTry false,
        .sleepMs SLEEP_TIME_MS,
        .resolve true, .socketCreate, .connectTry false]) :=
  C5_exactly_five_attempts_then_error refuseEnv sampleReport
    (fun _ => rfl) (fun _ => rfl)

/-- C7: a report that fails field validation makes `reporter` return -2
with only the offending-field diagnostic: no address resolution, socket
creation, connect attempt, write, or read happens, and the reporter
binary is not even launched. -/
theorem C7_validation_before_any_network (env : Env) (r : GameReport)
    (f : REPORT_FIELD) (h : check_fields_limit r = some f) :
    Connector.reporter env r = (-2, [.invalidField f]) ∧
    (Connector.reporter env r).2.countP isNetworkEv = 0 := by
  unfold Connector.reporter
  rw [h]
  exact ⟨rfl, rfl⟩

/-- C7 witness: concrete over-limit report, fault-free environment. -/
theorem C7_validation_before_any_network_witness :
    Connector.reporter okEnv wBadSender =
      (-2, [.invalidField .RF_SENDER_NAME]) ∧
    (Connector.reporter okEnv wBadSender).2.countP isNetworkEv = 0 :=
  C7_validation_before_any_network okEnv wBadSender .RF_SENDER_NAME
    (by decide)

/-- On a connection whose sends all transfer fully, the older variant's
`send_string` succeeds, whatever the call index and text. -/
theorem connectors_send_string_ok (c : ConnEnv)
    (h : ∀ k n, c.sendCount k n = n) (k : Nat) (t : List Nat) :
    (Connectors.send_string c k t).1 = .ok () := by
  simp only [Connectors.send_string, h]
  split_ifs <;> rfl

/-- On a connection whose sends all transfer fully, the newer variant's
`send_data` succeeds. -/
theorem connector_send_data_ok (c : ConnEnv)
    (h : ∀ k n, c.sendCount k n = n) (r : GameReport) :
    (Connector.send_data c r).1 = .ok () := by
  simp [Connector.send_data, Connector.send_string,
    Connector.send_protocol_version, h]

/-- On a connection whose sends all transfer fully, the older variant's
`send_data` succeeds. -/
theorem connectors_send_data_ok (c : ConnEnv)
    (h : ∀ k n, c.sendCount k n = n) (r : GameReport) :
    (Connectors.send_data c r).1 = .ok () := by
  unfold Connectors.send_data
  simp only [connectors_send_string_ok c h]

/-- Single-connection environment whose collector delivers exactly the
2-byte reply. -/
def twoByteReplySEnv : SEnv :=
  { resolve_ok := true, resolve_code := 0, connect_ok := true,
    last_error := 0,
    conn := { sendCount := fun _ n => n, recvCount := 2, recvVal := 0 } }

/-- C6 counterexample: the reporter_connectors variant's reply read
requests 4 bytes (an `int`), not 2; when the collector delivers exactly
the 2-byte u16 answer code, that variant reports a transport error
instead of decoding the answer. -/
theorem C6_counterexample_connectors_read_four :
    (Connectors.send_report twoByteReplySEnv sampleReport).1 =
      some (.recvErr 2 4) ∧
    (Connectors.send_report twoByteReplySEnv sampleReport).2.contains
      (.recvB 4 2) = true := by decide

/-- C6 amended: on a connection whose writes all succeed, the
reporter_connector variant's reply read requests exactly 2 bytes and any
other received count yields a transport error (not a protocol answer),
while the reporter_connectors variant's reply read requests 4 bytes, any
other received count likewise yielding a transport error, a full 4-byte
read succeeding. -/
theorem C6_amended_reply_read_sizes (env : Env) (senv : SEnv)
    (r r2 : GameReport)
    (hres : env.resolve_ok 0 = true) (hcon : env.connect_ok 0 = true)
    (hsend : ∀ k n, (env.conn 0).sendCount k n = n)
    (hresS : senv.resolve_ok = true) (hconS : senv.connect_ok = true)
    (hsendS : ∀ k n, senv.conn.sendCount k n = n) :
    Ev.recvB 2 ((env.conn 0).recvCount) ∈ (Connector.send_report env r).2 ∧
    Ev.recvB 4 senv.conn.recvCount ∈ (Connectors.send_report senv r2).2 ∧
    ((env.conn 0).recvCount ≠ 2 →
      (Connector.send_report env r).1 =
        .error (.recvErr ((env.conn 0).recvCount) 2)) ∧
    (senv.conn.recvCount ≠ 4 →
      (Connectors.send_report senv r2).1 =
        some (.recvErr senv.conn.recvCount 4)) ∧
    (senv.conn.recvCount = 4 →
      (Connectors.send_report senv r2).1 = none) := by
  refine ⟨?_, ?_, ?_, ?_, ?_⟩
  · by_cases h : (env.conn 0).recvCount = 2 <;>
      (unfold Connector.send_report
       simp [Connector.send_report_loop, RETRY_CONNECT_COUNT,
         connector_send_data_ok (env.conn 0) hsend, hres, hcon, h])
  · by_cases h : senv.conn.recvCount = 4 <;>
      simp [Connectors.send_report, hresS, hconS,
        connectors_send_data_ok senv.conn hsendS, h]
  · intro h
    unfold Connector.send_report
    simp [Connector.send_report_loop, RETRY_CONNECT_COUNT,
      connector_send_data_ok (env.conn 0) hsend, hres, hcon, h]
  · intro h
    simp [Connectors.send_report, hresS, hconS,
      connectors_send_data_ok senv.conn hsendS, h]
  · intro h
    simp [Connectors.send_report, hresS, hconS,
      connectors_send_data_ok senv.conn hsendS, h]

/-- Single-connection environment whose collector delivers only 1 byte of
the reply. -/
def oneByteReplySEnv : SEnv :=
  { resolve_ok := true, resolve_code := 0, connect_ok := true,
    last_error := 0,
    conn := { sendCount := fun _ n => n, recvCount := 1, recvVal := 0 } }

/-- C6 amended witness: a 1-byte reply makes the older variant fail with
the transport error recording 1 received of 4 expected. -/
theorem C6_amended_reply_read_sizes_witness :
    (Connectors.send_report oneByteReplySEnv sampleReport).1 =
      some (.recvErr oneByteReplySEnv.conn.recvCount 4) :=
  (C6_amended_reply_read_sizes okEnv oneByteReplySEnv sampleReport
      sampleReport rfl rfl (fun _ _ => rfl) rfl rfl
      (fun _ _ => rfl)).2.2.2.1 (by decide)

/-- The newer variant's `send_protocol_version` performs exactly one
`send` call, whatever its outcome. -/
theorem connector_send_protocol_version_events (c : ConnEnv) (k : Nat) :
    (Connector.send_protocol_version c k).2 =
      [.sendB (le16 (REPORTER_PROTOCOL % 65536)) (c.sendCount k 2)] := by
  simp only [Connector.send_protocol_version]
  split_ifs <;> rfl

/-- The newer variant's `send_string` performs exactly one `send` call,
whatever its outcome. -/
theorem connector_send_string_events (c : ConnEnv) (k : Nat)
    (t : List Nat) :
    (Connector.send_string c k t).2 =
      [.sendB (le16 (t.length % 65536)) (c.sendCount k 2)] := by
  simp only [Connector.send_string]
  split_ifs <;> rfl

/-- The newer variant's `send_data` only ever performs `send` calls: on
no path — the version write or any of the six field writes failing or
succeeding — do its events include the half-close or the socket close. -/
theorem connector_send_data_no_close (c : ConnEnv) (r : GameReport) :
    Ev.closeSocket ∉ (Connector.send_data c r).2 ∧
    Ev.shutdownSend ∉ (Connector.send_data c r).2 := by
  constructor <;>
    (unfold Connector.send_data
     simp only [connector_send_protocol_version_events,
       connector_send_string_events]
     repeat' split
     all_goals simp)

/-- Environment whose connect succeeds but whose very first frame write
transfers only 1 of the 2 requested bytes. -/
def shortWriteEnv : Env :=
  { resolve_ok := fun _ => true, resolve_code := fun _ => 0,
    connect_ok := fun _ => true, last_error := fun _ => 0,
    conn := fun _ =>
      { sendCount := fun k n => if k = 0 then 1 else n,
        recvCount := 2, recvVal := 0 },
    reporter_exists := true, spawn_ok := true, spawn_code := 0 }

/-- C8 counterexample: with the connect succeeding and the first write
failing (1 of 2 bytes transferred), the reporter_connector send operation
returns the transport error without performing the half-close or closing
the socket — the descriptor of the successfully connected socket is
leaked. -/
theorem C8_counterexample_no_close_on_error :
    (Connector.send_report shortWriteEnv sampleReport).1 =
      .error (.sendErr 1 2) ∧
    (Connector.send_report shortWriteEnv sampleReport).2.contains
      (.connectTry true) = true ∧
    (Connector.send_report shortWriteEnv sampleReport).2.contains
      .closeSocket = false ∧
    (Connector.send_report shortWriteEnv sampleReport).2.contains
      .shutdownSend = false := by decide

/-- C8 amended: after a successful connect, the session performs the
half-close followed by the socket close only on the path where every
write and the read succeed; when a write fails, or the read returns a
wrong byte count, the operation returns at once with the transport error
and neither half-closes nor closes the socket. -/
theorem C8_amended_close_only_on_success (env : Env) (r : GameReport)
    (hres : env.resolve_ok 0 = true) (hcon : env.connect_ok 0 = true) :
    ((∀ k n, (env.conn 0).sendCount k n = n) →
      (env.conn 0).recvCount = 2 →
      Ev.shutdownSend ∈ (Connector.send_report env r).2 ∧
      Ev.closeSocket ∈ (Connector.send_report env r).2) ∧
    (∀ e, (Connector.send_data (env.conn 0) r).1 = .error e →
      Ev.closeSocket ∉ (Connector.send_report env r).2 ∧
      Ev.shutdownSend ∉ (Connector.send_report env r).2 ∧
      (Connector.send_report env r).1 = .error e) ∧
    ((Connector.send_data (env.conn 0) r).1 = .ok () →
      (env.conn 0).recvCount ≠ 2 →
      Ev.closeSocket ∉ (Connector.send_report env r).2 ∧
      Ev.shutdownSend ∉ (Connector.send_report env r).2 ∧
      (Connector.send_report env r).1 =
        .error (.recvErr ((env.conn 0).recvCount) 2)) := by
  refine ⟨fun hsend hrecv => ?_, fun e hsd => ?_, fun hsd hrecv => ?_⟩
  · unfold Connector.send_report
    simp [Connector.send_report_loop, Connector.send_data,
      Connector.send_string, Connector.send_protocol_version,
      hres, hcon, hsend, hrecv, RETRY_CONNECT_COUNT]
  · unfold Connector.send_report
    simp [Connector.send_report_loop, hres, hcon, hsd,
      RETRY_CONNECT_COUNT,
      (connector_send_data_no_close (env.conn 0) r).1,
      (connector_send_data_no_close (env.conn 0) r).2]
  · unfold Connector.send_report
    simp [Connector.send_report_loop, hres, hcon, hsd, hrecv,
      RETRY_CONNECT_COUNT,
      (connector_send_data_no_close (env.conn 0) r).1,
      (connector_send_data_no_close (env.conn 0) r).2]

/-- C8 amended witness: on the fully successful environment the trace
does contain the half-close and the close; on the environment whose
first write fails, the operation ends with the send error and the trace
contains neither. -/
theorem C8_amended_close_only_on_success_witness :
    (Ev.shutdownSend ∈ (Connector.send_report okEnv sampleReport).2 ∧
     Ev.closeSocket ∈ (Connector.send_report okEnv sampleReport).2) ∧
    (Ev.closeSocket ∉ (Connector.send_report shortWriteEnv sampleReport).2 ∧
     Ev.shutdownSend ∉ (Connector.send_report shortWriteEnv sampleReport).2 ∧
     (Connector.send_report shortWriteEnv sampleReport).1 =
       .error (.sendErr 1 2)) :=
  ⟨(C8_amended_close_only_on_success okEnv sampleReport rfl rfl).1
      (fun _ _ => rfl) rfl,
   (C8_amended_close_only_on_success shortWriteEnv sampleReport rfl rfl).2.1
      (.sendErr 1 2) (by decide)⟩
